import Mathlib

/-!
Verification development for the celestia-watchtower monitoring engine.

Shallow embedding of the Go sources:
  - `config/config.go`  — the `Config` record (the fields the engine reads);
  - `monitor/engine.go` — `Engine`, `runCheck`, `sendAlerts`, the run loop;
  - `monitor/status.go` — `Status`, `CheckNodeStatus`, `SaveStatus`, `LoadStatus`;
  - `alert/manager.go`  — `Manager.SendAlert` and the per-channel senders.

Machine integers are modelled as `Nat`/`Int` with explicit two-complement
wrapping where the Go code converts `uint64` to `int64`.  The RPC client is
modelled as a record of the five query outcomes for one tick; HTTP channel
sends are modelled as per-tick outcomes.  JSON serialization of a `Status`
(Go `encoding/json`) is modelled as a JSON value tree: `SaveStatus` stores
the encoded tree, `LoadStatus` decodes it back, field by field, by the
field names of the Go struct tags.
-/

deriving instance DecidableEq for Except

namespace Watchtower

/-! ## Configuration (config/config.go)

Only the sections the monitoring engine reads are modelled; the node
endpoint, check interval and logging sections drive construction-time and
timing behaviour outside the embedding. -/

structure TelegramConfig where
  enabled : Bool
  botToken : String
  chatID : String
deriving DecidableEq

structure DiscordConfig where
  enabled : Bool
  webhook : String
deriving DecidableEq

structure TwilioConfig where
  enabled : Bool
  accountSID : String
  authToken : String
  fromNumber : String
  toNumber : String
deriving DecidableEq

structure AlertsConfig where
  enabled : Bool
  telegram : TelegramConfig
  discord : DiscordConfig
  twilio : TwilioConfig
deriving DecidableEq

structure ThresholdsConfig where
  blocksBehindCritical : Int
  minPeersHealthy : Int
deriving DecidableEq

structure Config where
  alerts : AlertsConfig
  thresholds : ThresholdsConfig
deriving DecidableEq

/-! ## Status snapshot (monitor/status.go) -/

structure Bandwidth where
  totalIn : Int
  totalOut : Int
  rateIn : ℚ
  rateOut : ℚ
deriving DecidableEq

structure Status where
  timestamp : Nat
  networkHeight : Nat
  localHeight : Nat
  heightDiff : Int
  syncHealthy : Bool
  peerCount : Int
  natStatus : String
  netHealthy : Bool
  bandwidth : Bandwidth
  healthy : Bool
deriving DecidableEq

/-! ## RPC client (rpc/client.go), one tick of query outcomes -/

structure Client where
  getNetworkHead : Except String Nat
  getLocalHead : Except String Nat
  getPeers : Except String Int
  getNATStatus : Except String String
  getBandwidthStats : Except String Bandwidth

/-- Which of the five queries of `CheckNodeStatus` failed, with the
underlying cause; mirrors the wrapped error messages of the Go code. -/
inductive QueryError where
  | networkHeight (cause : String)
  | localHeight (cause : String)
  | peerCount (cause : String)
  | natStatus (cause : String)
  | bandwidthStats (cause : String)
deriving DecidableEq

/-- The formatted message of a query error, as `CheckNodeStatus` wraps it. -/
def QueryError.message : QueryError → String
  | .networkHeight c => "failed to get network height: " ++ c
  | .localHeight c => "failed to get local height: " ++ c
  | .peerCount c => "failed to get peer count: " ++ c
  | .natStatus c => "failed to get NAT status: " ++ c
  | .bandwidthStats c => "failed to get bandwidth stats: " ++ c

/-! ## Two-complement arithmetic of the Go conversions -/

/-- Go conversion `int64(x)` of a `uint64` value: reinterpret the low 64
bits as a signed value. -/
def uint64ToInt64 (n : Nat) : Int :=
  if n % 2 ^ 64 < 2 ^ 63 then ((n % 2 ^ 64 : Nat) : Int)
  else ((n % 2 ^ 64 : Nat) : Int) - 2 ^ 64

/-- Reduce an integer into the `int64` range by two-complement wrapping. -/
def wrap64 (x : Int) : Int :=
  (x + 2 ^ 63) % 2 ^ 64 - 2 ^ 63

/-- Go `int64` subtraction (wraps on overflow). -/
def int64Sub (a b : Int) : Int :=
  wrap64 (a - b)

/-- The snapshot `CheckNodeStatus` assembles from five successful
readings: `HeightDiff = int64(networkHeight) - int64(localHeight)`,
`SyncHealthy = HeightDiff <= int64(BlocksBehindCritical)`,
`NetHealthy = peerCount >= MinPeersHealthy` and
`Healthy = SyncHealthy && NetHealthy`. -/
def evalStatus (cfg : Config) (now : Nat) (networkHeight localHeight : Nat)
    (peerCount : Int) (natStatus : String) (bandwidthStats : Bandwidth) :
    Status :=
  let heightDiff :=
    int64Sub (uint64ToInt64 networkHeight) (uint64ToInt64 localHeight)
  let syncHealthy :=
    decide (heightDiff ≤ cfg.thresholds.blocksBehindCritical)
  let netHealthy :=
    decide (peerCount ≥ cfg.thresholds.minPeersHealthy)
  { timestamp := now
    networkHeight := networkHeight
    localHeight := localHeight
    heightDiff := heightDiff
    syncHealthy := syncHealthy
    peerCount := peerCount
    natStatus := natStatus
    netHealthy := netHealthy
    bandwidth := bandwidthStats
    healthy := syncHealthy && netHealthy }

/-- `CheckNodeStatus` (monitor/status.go): query network height, local
height, peer count, NAT status and bandwidth stats in this order, abort on
the first failure with an error naming the failed query, otherwise return
the assembled snapshot. -/
def checkNodeStatus (client : Client) (cfg : Config) (now : Nat) :
    Except QueryError Status :=
  match client.getNetworkHead with
  | .error e => .error (.networkHeight e)
  | .ok networkHeight =>
    match client.getLocalHead with
    | .error e => .error (.localHeight e)
    | .ok localHeight =>
      match client.getPeers with
      | .error e => .error (.peerCount e)
      | .ok peerCount =>
        match client.getNATStatus with
        | .error e => .error (.natStatus e)
        | .ok natStatus =>
          match client.getBandwidthStats with
          | .error e => .error (.bandwidthStats e)
          | .ok bandwidthStats =>
            .ok (evalStatus cfg now networkHeight localHeight peerCount
                  natStatus bandwidthStats)

/-! ## JSON serialization and the status store (monitor/status.go)

Go `json.Marshal`/`json.Unmarshal` are modelled on a JSON value tree:
`statusToJson` writes the fields under the Go struct tags, `jsonToStatus`
reads them back by name with the tolerant Go semantics (a missing field
keeps its zero value, a field of the wrong shape is a parse error). -/

inductive Json where
  | null
  | bool (b : Bool)
  | num (q : ℚ)
  | str (s : String)
  | arr (xs : List Json)
  | obj (fields : List (String × Json))

/-- Read a JSON field into a `uint64`-valued Go struct field: absent means
the zero value, a non-negative integral number is accepted, anything else
is a parse error. -/
def jGetNat : Option Json → Option Nat
  | none => some 0
  | some (.num q) => if q.den = 1 ∧ 0 ≤ q.num then some q.num.toNat else none
  | some _ => none

/-- Read a JSON field into an `int64`/`int`-valued Go struct field. -/
def jGetInt : Option Json → Option Int
  | none => some 0
  | some (.num q) => if q.den = 1 then some q.num else none
  | some _ => none

/-- Read a JSON field into a `float64`-valued Go struct field. -/
def jGetRat : Option Json → Option ℚ
  | none => some 0
  | some (.num q) => some q
  | some _ => none

/-- Read a JSON field into a `bool`-valued Go struct field. -/
def jGetBool : Option Json → Option Bool
  | none => some false
  | some (.bool b) => some b
  | some _ => none

/-- Read a JSON field into a `string`-valued Go struct field. -/
def jGetStr : Option Json → Option String
  | none => some ""
  | some (.str s) => some s
  | some _ => none

/-- Serialization of the embedded `Bandwidth` struct of `Status`. -/
def bandwidthToJson (b : Bandwidth) : Json :=
  .obj [("total_in", .num (b.totalIn : ℚ)),
        ("total_out", .num (b.totalOut : ℚ)),
        ("rate_in", .num b.rateIn),
        ("rate_out", .num b.rateOut)]

/-- Deserialization of the embedded `Bandwidth` struct of `Status`. -/
def jsonToBandwidth : Option Json → Option Bandwidth
  | none => some { totalIn := 0, totalOut := 0, rateIn := 0, rateOut := 0 }
  | some (.obj fields) => do
      let totalIn ← jGetInt (fields.lookup "total_in")
      let totalOut ← jGetInt (fields.lookup "total_out")
      let rateIn ← jGetRat (fields.lookup "rate_in")
      let rateOut ← jGetRat (fields.lookup "rate_out")
      some { totalIn := totalIn, totalOut := totalOut,
             rateIn := rateIn, rateOut := rateOut }
  | some _ => none

/-- `json.Marshal` of a `Status`, by the struct tags of monitor/status.go;
the `time.Time` timestamp is carried as its instant value. -/
def statusToJson (s : Status) : Json :=
  .obj [("timestamp", .num (s.timestamp : ℚ)),
        ("network_height", .num (s.networkHeight : ℚ)),
        ("local_height", .num (s.localHeight : ℚ)),
        ("height_diff", .num (s.heightDiff : ℚ)),
        ("sync_healthy", .bool s.syncHealthy),
        ("peer_count", .num (s.peerCount : ℚ)),
        ("nat_status", .str s.natStatus),
        ("net_healthy", .bool s.netHealthy),
        ("bandwidth", bandwidthToJson s.bandwidth),
        ("healthy", .bool s.healthy)]

/-- `json.Unmarshal` of stored bytes into a `Status`. -/
def jsonToStatus : Json → Option Status
  | .obj fields => do
      let timestamp ← jGetNat (fields.lookup "timestamp")
      let networkHeight ← jGetNat (fields.lookup "network_height")
      let localHeight ← jGetNat (fields.lookup "local_height")
      let heightDiff ← jGetInt (fields.lookup "height_diff")
      let syncHealthy ← jGetBool (fields.lookup "sync_healthy")
      let peerCount ← jGetInt (fields.lookup "peer_count")
      let natStatus ← jGetStr (fields.lookup "nat_status")
      let netHealthy ← jGetBool (fields.lookup "net_healthy")
      let bandwidth ← jsonToBandwidth (fields.lookup "bandwidth")
      let healthy ← jGetBool (fields.lookup "healthy")
      some { timestamp := timestamp, networkHeight := networkHeight,
             localHeight := localHeight, heightDiff := heightDiff,
             syncHealthy := syncHealthy, peerCount := peerCount,
             natStatus := natStatus, netHealthy := netHealthy,
             bandwidth := bandwidth, healthy := healthy }
  | _ => none

/-- The state of the status file: absent before the first save, else the
stored serialized record. -/
abbrev StoreState := Option Json

/-- Errors of `LoadStatus` (monitor/status.go): the file does not exist,
or its bytes do not parse into a `Status`. -/
inductive StoreError where
  | notFound
  | corruptData
deriving DecidableEq

/-- `SaveStatus` (monitor/status.go): marshal the snapshot and overwrite
the single status file (its previous content is irrelevant). -/
def saveStatus (s : Status) (_st : StoreState) : StoreState :=
  some (statusToJson s)

/-- `LoadStatus` (monitor/status.go): fail with not-found when the status
file does not exist, parse the stored record otherwise and fail with a
corrupt-data error when it does not parse. -/
def loadStatus : StoreState → Except StoreError Status
  | none => .error .notFound
  | some j =>
    match jsonToStatus j with
    | some s => .ok s
    | none => .error .corruptData

/-! ## Alert manager (alert/manager.go)

The three HTTP deliveries are modelled as per-tick outcomes: each field of
`ChannelResults` is the result the corresponding HTTP send would have if
attempted.  `sendAlert` additionally records which channels it attempted,
the trace of the send calls the Go code makes. -/

inductive Channel where
  | telegram
  | discord
  | twilio
deriving DecidableEq

structure ChannelResults where
  telegram : Except String Unit
  discord : Except String Unit
  twilio : Except String Unit

/-- `Manager.sendTelegramAlert`: reject unset credentials, otherwise the
outcome of the HTTP call. -/
def sendTelegramAlert (cfg : Config) (res : ChannelResults) : Except String Unit :=
  if cfg.alerts.telegram.botToken = "" ∨ cfg.alerts.telegram.chatID = "" then
    .error "Telegram bot token or chat ID not configured"
  else res.telegram

/-- `Manager.sendDiscordAlert`: reject an unset webhook, otherwise the
outcome of the HTTP call. -/
def sendDiscordAlert (cfg : Config) (res : ChannelResults) : Except String Unit :=
  if cfg.alerts.discord.webhook = "" then
    .error "Discord webhook not configured"
  else res.discord

/-- `Manager.sendTwilioAlert`: reject unset credentials, otherwise the
outcome of the HTTP call. -/
def sendTwilioAlert (cfg : Config) (res : ChannelResults) : Except String Unit :=
  if cfg.alerts.twilio.accountSID = "" ∨ cfg.alerts.twilio.authToken = "" ∨
      cfg.alerts.twilio.fromNumber = "" ∨ cfg.alerts.twilio.toNumber = "" then
    .error "Twilio credentials or phone numbers not configured"
  else res.twilio

/-- `Manager.SendAlert` (alert/manager.go): return immediately when alerts
are globally disabled; otherwise try every enabled channel in the order
Telegram, Discord, Twilio, collecting one formatted failure per failing
channel, and fail with the joined aggregate when any channel failed.
The result carries (attempted channels, collected failures, outcome). -/
def sendAlert (cfg : Config) (res : ChannelResults) (_message : String) :
    List Channel × List String × Except String Unit :=
  if cfg.alerts.enabled = false then ([], [], .ok ())
  else
    let telegramPart : List Channel × List String :=
      if cfg.alerts.telegram.enabled then
        ([.telegram],
          match sendTelegramAlert cfg res with
          | .ok _ => []
          | .error e => ["Telegram: " ++ e])
      else ([], [])
    let discordPart : List Channel × List String :=
      if cfg.alerts.discord.enabled then
        ([.discord],
          match sendDiscordAlert cfg res with
          | .ok _ => []
          | .error e => ["Discord: " ++ e])
      else ([], [])
    let twilioPart : List Channel × List String :=
      if cfg.alerts.twilio.enabled then
        ([.twilio],
          match sendTwilioAlert cfg res with
          | .ok _ => []
          | .error e => ["Twilio: " ++ e])
      else ([], [])
    let failures := telegramPart.2 ++ discordPart.2 ++ twilioPart.2
    (telegramPart.1 ++ discordPart.1 ++ twilioPart.1, failures,
      if failures.isEmpty then .ok ()
      else .error ("failed to send alerts: " ++ String.intercalate "; " failures))

/-! ## Monitoring engine (monitor/engine.go) -/

/-- The engine-owned mutable state: the last successfully evaluated
snapshot (nil before the first successful cycle), together with the state
of the status file.  `runCheck` contains no call of `SaveStatus`, so the
store component is carried through untouched. -/
structure EngineState where
  lastStatus : Option Status
  store : StoreState

/-- The state `NewEngine` constructs: `lastStatus` is left at its zero
value nil; no status file has been written. -/
def initialEngineState : EngineState :=
  { lastStatus := none, store := none }

/-- `Engine.GetLastStatus`. -/
def getLastStatus (st : EngineState) : Option Status :=
  st.lastStatus

/-- `Engine.sendAlerts` (monitor/engine.go): the alert message, built from
the snapshot and the thresholds — the failing checks are summarized. -/
def alertMessage (cfg : Config) (s : Status) : String :=
  "Celestia Node Alert. Time: " ++ toString s.timestamp ++ ". " ++
  (if s.syncHealthy = false then
    "Sync Issue: Node is " ++ toString s.heightDiff ++
    " blocks behind the network. Local Height: " ++ toString s.localHeight ++
    ", Network Height: " ++ toString s.networkHeight ++ ". "
  else "") ++
  (if s.netHealthy = false then
    "Network Issue: Node has only " ++ toString s.peerCount ++
    " peers (min: " ++ toString cfg.thresholds.minPeersHealthy ++
    "). NAT Status: " ++ s.natStatus ++ "."
  else "")

/-- The inputs one tick of the run loop consumes: the query outcomes of
the RPC client, the current instant, and the outcomes the alert channels
would deliver if called. -/
structure TickInput where
  client : Client
  now : Nat
  channels : ChannelResults

/-- `Engine.runCheck` (monitor/engine.go): evaluate the node status; on a
query failure return the wrapped error with the state untouched; on
success overwrite `lastStatus`, print the snapshot, and — when the
snapshot is unhealthy and alerts are enabled — invoke the alert manager,
wrapping its failure into the returned error.  The returned triple is
(new state, whether the alert manager was invoked, returned error). -/
def runCheck (cfg : Config) (st : EngineState) (t : TickInput) :
    EngineState × Bool × Option String :=
  match checkNodeStatus t.client cfg t.now with
  | .error e => (st, false, some ("failed to check node status: " ++ e.message))
  | .ok status =>
    let st1 : EngineState := { st with lastStatus := some status }
    if !status.healthy && cfg.alerts.enabled then
      match (sendAlert cfg t.channels (alertMessage cfg status)).2.2 with
      | .ok _ => (st1, true, none)
      | .error e => (st1, true, some ("failed to send alerts: " ++ e))
    else (st1, false, none)

/-- The run loop of `Engine.Start` over a finite sequence of ticks: every
tick runs `runCheck`; an error is logged and the loop continues.  Returns
the final state and, per tick, whether the alert manager was invoked. -/
def engineRun (cfg : Config) (st : EngineState) :
    List TickInput → EngineState × List Bool
  | [] => (st, [])
  | t :: rest =>
    let step := runCheck cfg st t
    let tail := engineRun cfg step.1 rest
    (tail.1, step.2.1 :: tail.2)

/-! ## Concrete fixtures

The scenario of the spec: thresholds 10 blocks behind / 5 peers, a healthy
reading (1000, 995, 6 peers) and an unhealthy one (1000, 985, 3 peers);
alerts globally enabled with no delivery channel configured. -/

/-- Thresholds 10/5, alerts enabled, all channels disabled. -/
def cfgC : Config :=
  { alerts :=
      { enabled := true
        telegram := { enabled := false, botToken := "", chatID := "" }
        discord := { enabled := false, webhook := "" }
        twilio := { enabled := false, accountSID := "", authToken := "",
                    fromNumber := "", toNumber := "" } }
    thresholds := { blocksBehindCritical := 10, minPeersHealthy := 5 } }

/-- A zero bandwidth reading. -/
def bw0 : Bandwidth :=
  { totalIn := 0, totalOut := 0, rateIn := 0, rateOut := 0 }

/-- A client whose five queries all succeed with the given readings. -/
def okClient (networkHeight localHeight : Nat) (peers : Int) : Client :=
  { getNetworkHead := .ok networkHeight
    getLocalHead := .ok localHeight
    getPeers := .ok peers
    getNATStatus := .ok "Public"
    getBandwidthStats := .ok bw0 }

/-- Channel outcomes where every attempted HTTP send would succeed. -/
def okChannels : ChannelResults :=
  { telegram := .ok (), discord := .ok (), twilio := .ok () }

/-- A tick that evaluates healthy under `cfgC`. -/
def healthyTick : TickInput :=
  { client := okClient 1000 995 6, now := 0, channels := okChannels }

/-- A tick that evaluates unhealthy under `cfgC` (15 blocks behind,
3 peers). -/
def unhealthyTick : TickInput :=
  { client := okClient 1000 985 3, now := 0, channels := okChannels }

/-- The healthy-flag sequence [true, false, false, true, false] of the
spec, as concrete ticks. -/
def tickSeq : List TickInput :=
  [healthyTick, unhealthyTick, unhealthyTick, healthyTick, unhealthyTick]

/-- The channels the alert manager is configured to use: those whose
enabled flag is set, in the order the Go code tries them. -/
def enabledChannels (cfg : Config) : List Channel :=
  (if cfg.alerts.telegram.enabled then [Channel.telegram] else []) ++
  (if cfg.alerts.discord.enabled then [Channel.discord] else []) ++
  (if cfg.alerts.twilio.enabled then [Channel.twilio] else [])

/-- A client whose local-height query fails and whose other queries
succeed. -/
def localFailClient : Client :=
  { getNetworkHead := .ok 1000
    getLocalHead := .error "connection refused"
    getPeers := .ok 6
    getNATStatus := .ok "Public"
    getBandwidthStats := .ok bw0 }

/-- A tick whose network-height query fails. -/
def netFailTick : TickInput :=
  { client :=
      { getNetworkHead := .error "connection refused"
        getLocalHead := .ok 1000
        getPeers := .ok 6
        getNATStatus := .ok "Public"
        getBandwidthStats := .ok bw0 }
    now := 0
    channels := okChannels }

/-- Alerts enabled with a configured Telegram channel and a configured
Discord channel. -/
def cfgW : Config :=
  { alerts :=
      { enabled := true
        telegram := { enabled := true, botToken := "tok", chatID := "42" }
        discord := { enabled := true, webhook := "https://example.invalid/hook" }
        twilio := { enabled := false, accountSID := "", authToken := "",
                    fromNumber := "", toNumber := "" } }
    thresholds := { blocksBehindCritical := 10, minPeersHealthy := 5 } }

/-- Channel outcomes where the Telegram HTTP send fails and the others
succeed. -/
def resW : ChannelResults :=
  { telegram := .error "HTTP 500", discord := .ok (), twilio := .ok () }

/-- The configuration `cfgW` with alerts globally disabled (individual
channels still marked enabled). -/
def cfgDisabled : Config :=
  { cfgW with alerts := { cfgW.alerts with enabled := false } }

/-- The snapshot the unhealthy reading (1000, 985, 3 peers) evaluates to
under `cfgC` at instant 7. -/
def s985 : Status := evalStatus cfgC 7 1000 985 3 "Public" bw0

/-! ## Helper lemmas -/

lemma jGetNat_encode (n : Nat) : jGetNat (some (.num (n : ℚ))) = some n := by
  simp [jGetNat]

lemma jGetInt_encode (i : Int) : jGetInt (some (.num (i : ℚ))) = some i := by
  simp [jGetInt]

lemma jGetRat_encode (q : ℚ) : jGetRat (some (.num q)) = some q := rfl

lemma jGetBool_encode (b : Bool) : jGetBool (some (.bool b)) = some b := rfl

lemma jGetStr_encode (s : String) : jGetStr (some (.str s)) = some s := rfl

lemma jsonToBandwidth_encode (b : Bandwidth) :
    jsonToBandwidth (some (bandwidthToJson b)) = some b := by
  simp [jsonToBandwidth, bandwidthToJson, List.lookup, jGetInt_encode,
    jGetRat_encode]

lemma jsonToStatus_encode (s : Status) :
    jsonToStatus (statusToJson s) = some s := by
  simp [jsonToStatus, statusToJson, List.lookup, jGetNat_encode,
    jGetInt_encode, jGetRat_encode, jGetBool_encode, jGetStr_encode,
    jsonToBandwidth_encode]

lemma checkNodeStatus_ok (c : Client) (cfg : Config) (now : Nat) (s : Status)
    (h : checkNodeStatus c cfg now = .ok s) :
    ∃ n l p na b, c.getNetworkHead = .ok n ∧ c.getLocalHead = .ok l ∧
      c.getPeers = .ok p ∧ c.getNATStatus = .ok na ∧
      c.getBandwidthStats = .ok b ∧ s = evalStatus cfg now n l p na b := by
  cases h1 : c.getNetworkHead with
  | error e => simp [checkNodeStatus, h1] at h
  | ok n =>
    cases h2 : c.getLocalHead with
    | error e => simp [checkNodeStatus, h1, h2] at h
    | ok l =>
      cases h3 : c.getPeers with
      | error e => simp [checkNodeStatus, h1, h2, h3] at h
      | ok p =>
        cases h4 : c.getNATStatus with
        | error e => simp [checkNodeStatus, h1, h2, h3, h4] at h
        | ok na =>
          cases h5 : c.getBandwidthStats with
          | error e => simp [checkNodeStatus, h1, h2, h3, h4, h5] at h
          | ok b =>
            simp only [checkNodeStatus, h1, h2, h3, h4, h5,
              Except.ok.injEq] at h
            exact ⟨n, l, p, na, b, rfl, rfl, rfl, rfl, rfl, h.symm⟩

lemma checkNodeStatus_ok_verdicts (c : Client) (cfg : Config) (now : Nat)
    (s : Status) (h : checkNodeStatus c cfg now = .ok s) :
    s.syncHealthy = decide (s.heightDiff ≤ cfg.thresholds.blocksBehindCritical) ∧
    s.netHealthy = decide (s.peerCount ≥ cfg.thresholds.minPeersHealthy) ∧
    s.healthy = (s.syncHealthy && s.netHealthy) := by
  obtain ⟨n, l, p, na, b, -, -, -, -, -, rfl⟩ := checkNodeStatus_ok c cfg now s h
  exact ⟨rfl, rfl, rfl⟩

lemma runCheck_lastStatus (cfg : Config) (st : EngineState) (t : TickInput) :
    (runCheck cfg st t).1.lastStatus = st.lastStatus ∨
    ∃ s0, checkNodeStatus t.client cfg t.now = .ok s0 ∧
      (runCheck cfg st t).1.lastStatus = some s0 := by
  cases h : checkNodeStatus t.client cfg t.now with
  | error e => left; simp [runCheck, h]
  | ok s0 =>
    right
    refine ⟨s0, rfl, ?_⟩
    simp only [runCheck, h]
    split
    · split <;> rfl
    · rfl

lemma engineRun_healthy_inv (cfg : Config) :
    ∀ (ticks : List TickInput) (st : EngineState),
      (∀ s, st.lastStatus = some s → s.healthy = (s.syncHealthy && s.netHealthy)) →
      ∀ s, (engineRun cfg st ticks).1.lastStatus = some s →
        s.healthy = (s.syncHealthy && s.netHealthy) := by
  intro ticks
  induction ticks with
  | nil => intro st hst s hs; exact hst s hs
  | cons t rest ih =>
    intro st hst s hs
    simp only [engineRun] at hs
    refine ih (runCheck cfg st t).1 ?_ s hs
    intro s' hs'
    rcases runCheck_lastStatus cfg st t with hsame | ⟨s0, h0, hset⟩
    · exact hst s' (hsame ▸ hs')
    · rw [hset] at hs'
      obtain rfl := Option.some.inj hs'
      exact (checkNodeStatus_ok_verdicts t.client cfg t.now s0 h0).2.2

lemma int64Sub_exact (n l : Nat) (hn : n < 2 ^ 64) (hl : l < 2 ^ 64)
    (h1 : -(2 ^ 63) ≤ (n : Int) - (l : Int))
    (h2 : (n : Int) - (l : Int) < 2 ^ 63) :
    int64Sub (uint64ToInt64 n) (uint64ToInt64 l) = (n : Int) - (l : Int) := by
  unfold int64Sub wrap64 uint64ToInt64
  rw [Nat.mod_eq_of_lt hn, Nat.mod_eq_of_lt hl]
  split <;> split <;> omega

/-! ## Claim theorems -/

/-- Claim C3: for every successful evaluation, the returned Status
satisfies syncHealthy = (heightDiff ≤ blocksBehindCritical),
netHealthy = (peerCount ≥ minPeersHealthy) and
healthy = (syncHealthy AND netHealthy); and healthy equals the conjunction
in every snapshot reachable in an engine run. -/
theorem health_verdict_equations :
    (∀ (c : Client) (cfg : Config) (now : Nat) (s : Status),
      checkNodeStatus c cfg now = .ok s →
        s.syncHealthy = decide (s.heightDiff ≤ cfg.thresholds.blocksBehindCritical) ∧
        s.netHealthy = decide (s.peerCount ≥ cfg.thresholds.minPeersHealthy) ∧
        s.healthy = (s.syncHealthy && s.netHealthy)) ∧
    (∀ (cfg : Config) (ticks : List TickInput) (s : Status),
      (engineRun cfg initialEngineState ticks).1.lastStatus = some s →
        s.healthy = (s.syncHealthy && s.netHealthy)) := by
  refine ⟨fun c cfg now s h => checkNodeStatus_ok_verdicts c cfg now s h,
    fun cfg ticks s h => engineRun_healthy_inv cfg ticks initialEngineState ?_ s h⟩
  intro s' hs'
  simp [initialEngineState] at hs'

/-- Witness for C3: the unhealthy reading (1000, 985, 3 peers) under
thresholds 10/5. -/
theorem health_verdict_equations_witness :
    s985.syncHealthy = decide (s985.heightDiff ≤ cfgC.thresholds.blocksBehindCritical) ∧
    s985.netHealthy = decide (s985.peerCount ≥ cfgC.thresholds.minPeersHealthy) ∧
    s985.healthy = (s985.syncHealthy && s985.netHealthy) :=
  health_verdict_equations.1 (okClient 1000 985 3) cfgC 7 s985 (by decide)

/-- Claim C5: the evaluator consults the five queries in the order network
height, local height, peer count, NAT status, bandwidth stats; the first
failing query aborts the evaluation with an error naming that query and no
Status is produced; when all five succeed the assembled snapshot is
returned. -/
theorem query_order_fail_fast :
    (∀ (c : Client) (cfg : Config) (now : Nat) e,
      c.getNetworkHead = .error e →
        checkNodeStatus c cfg now = .error (.networkHeight e)) ∧
    (∀ (c : Client) (cfg : Config) (now : Nat) n e,
      c.getNetworkHead = .ok n → c.getLocalHead = .error e →
        checkNodeStatus c cfg now = .error (.localHeight e)) ∧
    (∀ (c : Client) (cfg : Config) (now : Nat) n l e,
      c.getNetworkHead = .ok n → c.getLocalHead = .ok l →
      c.getPeers = .error e →
        checkNodeStatus c cfg now = .error (.peerCount e)) ∧
    (∀ (c : Client) (cfg : Config) (now : Nat) n l p e,
      c.getNetworkHead = .ok n → c.getLocalHead = .ok l →
      c.getPeers = .ok p → c.getNATStatus = .error e →
        checkNodeStatus c cfg now = .error (.natStatus e)) ∧
    (∀ (c : Client) (cfg : Config) (now : Nat) n l p na e,
      c.getNetworkHead = .ok n → c.getLocalHead = .ok l →
      c.getPeers = .ok p → c.getNATStatus = .ok na →
      c.getBandwidthStats = .error e →
        checkNodeStatus c cfg now = .error (.bandwidthStats e)) ∧
    (∀ (c : Client) (cfg : Config) (now : Nat) n l p na b,
      c.getNetworkHead = .ok n → c.getLocalHead = .ok l →
      c.getPeers = .ok p → c.getNATStatus = .ok na →
      c.getBandwidthStats = .ok b →
        checkNodeStatus c cfg now = .ok (evalStatus cfg now n l p na b)) := by
  refine ⟨?_, ?_, ?_, ?_, ?_, ?_⟩
  · intro c cfg now e h1
    simp [checkNodeStatus, h1]
  · intro c cfg now n e h1 h2
    simp [checkNodeStatus, h1, h2]
  · intro c cfg now n l e h1 h2 h3
    simp [checkNodeStatus, h1, h2, h3]
  · intro c cfg now n l p e h1 h2 h3 h4
    simp [checkNodeStatus, h1, h2, h3, h4]
  · intro c cfg now n l p na e h1 h2 h3 h4 h5
    simp [checkNodeStatus, h1, h2, h3, h4, h5]
  · intro c cfg now n l p na b h1 h2 h3 h4 h5
    simp [checkNodeStatus, h1, h2, h3, h4, h5]

/-- Witness for C5: a failing local-height query with a succeeding
network-height query yields exactly the local-height error. -/
theorem query_order_fail_fast_witness :
    checkNodeStatus localFailClient cfgC 0
      = .error (.localHeight "connection refused") :=
  query_order_fail_fast.2.1 localFailClient cfgC 0 1000 "connection refused"
    rfl rfl

/-- Claim C4 (amended): heightDiff equals the signed difference
networkHeight − localHeight whenever that difference lies in the int64
range, including a negative value when localHeight exceeds networkHeight;
in that negative case syncHealthy is true for every non-negative
threshold.  (Outside the int64 range the conversion wraps modulo 2^64 —
see the counterexample.) -/
theorem heightDiff_signed_in_range (n l : Nat) (p : Int) (cfg : Config)
    (now : Nat) (hn : n < 2 ^ 64) (hl : l < 2 ^ 64)
    (h1 : -(2 ^ 63) ≤ (n : Int) - (l : Int))
    (h2 : (n : Int) - (l : Int) < 2 ^ 63) :
    (checkNodeStatus (okClient n l p) cfg now).map Status.heightDiff
      = .ok ((n : Int) - (l : Int)) ∧
    (l > n → 0 ≤ cfg.thresholds.blocksBehindCritical →
      (checkNodeStatus (okClient n l p) cfg now).map Status.syncHealthy
        = .ok true) := by
  have hok : checkNodeStatus (okClient n l p) cfg now
      = .ok (evalStatus cfg now n l p "Public" bw0) := rfl
  have hd : (evalStatus cfg now n l p "Public" bw0).heightDiff
      = (n : Int) - (l : Int) := int64Sub_exact n l hn hl h1 h2
  constructor
  · rw [hok, Except.map, hd]
  · intro hln hthr
    rw [hok, Except.map]
    have hs : (evalStatus cfg now n l p "Public" bw0).syncHealthy
        = decide ((evalStatus cfg now n l p "Public" bw0).heightDiff
            ≤ cfg.thresholds.blocksBehindCritical) := rfl
    rw [hs, hd]
    simp only [Except.ok.injEq, decide_eq_true_eq]
    omega

/-- Witness for C4: localHeight 1005 ahead of networkHeight 1000 gives
heightDiff −5 and a healthy sync verdict under threshold 10. -/
theorem heightDiff_signed_in_range_witness :
    (checkNodeStatus (okClient 1000 1005 6) cfgC 0).map Status.heightDiff
      = .ok ((1000 : Int) - (1005 : Int)) ∧
    (checkNodeStatus (okClient 1000 1005 6) cfgC 0).map Status.syncHealthy
      = .ok true :=
  ⟨(heightDiff_signed_in_range 1000 1005 6 cfgC 0 (by norm_num) (by norm_num)
      (by norm_num) (by norm_num)).1,
   (heightDiff_signed_in_range 1000 1005 6 cfgC 0 (by norm_num) (by norm_num)
      (by norm_num) (by norm_num)).2 (by norm_num) (by decide)⟩

/-- Counterexample for C4 as stated: at networkHeight 2^63 and
localHeight 0 the computed heightDiff is −(2^63), not the signed
difference 2^63 — the uint64-to-int64 conversion wraps. -/
theorem heightDiff_wraps_cx :
    (checkNodeStatus (okClient (2 ^ 63) 0 6) cfgC 0).map Status.heightDiff
      = .ok (-(2 ^ 63)) ∧
    ((2 ^ 63 : Nat) : Int) - ((0 : Nat) : Int) = 2 ^ 63 ∧
    (-(2 ^ 63) : Int) ≠ 2 ^ 63 :=
  ⟨by decide, by norm_num, by norm_num⟩

/-- Claim C6: the store round-trips — loading right after saving any valid
snapshot returns that snapshot; loading before any save fails with
not-found; stored bytes that do not parse into a Status make the load fail
with a corrupt-data error. -/
theorem store_roundtrip :
    (∀ (s : Status) (st : StoreState), loadStatus (saveStatus s st) = .ok s) ∧
    loadStatus none = .error .notFound ∧
    (∀ j : Json, jsonToStatus j = none →
      loadStatus (some j) = .error .corruptData) := by
  refine ⟨?_, rfl, ?_⟩
  · intro s st
    simp [saveStatus, loadStatus, jsonToStatus_encode]
  · intro j hj
    simp [loadStatus, hj]

/-- Witness for C6: a concrete snapshot round-trips, and a stored JSON
string that is not a Status record loads as corrupt data. -/
theorem store_roundtrip_witness :
    loadStatus (saveStatus s985 none) = .ok s985 ∧
    loadStatus (some (Json.str "garbage")) = .error .corruptData :=
  ⟨store_roundtrip.1 s985 none, store_roundtrip.2.2 (Json.str "garbage") rfl⟩

/-- Claim C7: a tick whose evaluation fails leaves the engine state — the
retained previous status and the persisted record — unchanged and sends no
notification, so the following ticks behave exactly as if the failed tick
had never evaluated; before the first successful cycle the retained status
is nil. -/
theorem failed_tick_noop :
    (∀ (cfg : Config) (st : EngineState) (t : TickInput) e,
      checkNodeStatus t.client cfg t.now = .error e →
        runCheck cfg st t
          = (st, false, some ("failed to check node status: " ++ e.message))) ∧
    (∀ (cfg : Config) (st : EngineState) (t : TickInput)
        (rest : List TickInput) e,
      checkNodeStatus t.client cfg t.now = .error e →
        (engineRun cfg st (t :: rest)).1 = (engineRun cfg st rest).1 ∧
        (engineRun cfg st (t :: rest)).2 = false :: (engineRun cfg st rest).2) ∧
    initialEngineState.lastStatus = none ∧ initialEngineState.store = none := by
  have hstep : ∀ (cfg : Config) (st : EngineState) (t : TickInput) e,
      checkNodeStatus t.client cfg t.now = .error e →
        runCheck cfg st t
          = (st, false, some ("failed to check node status: " ++ e.message)) := by
    intro cfg st t e h
    simp [runCheck, h]
  refine ⟨hstep, ?_, rfl, rfl⟩
  intro cfg st t rest e h
  simp [engineRun, hstep cfg st t e h]

/-- Witness for C7: a failing network-height tick leaves the initial state
untouched and a subsequent run is unaffected by it. -/
theorem failed_tick_noop_witness :
    runCheck cfgC initialEngineState netFailTick
      = (initialEngineState, false,
          some ("failed to check node status: "
            ++ (QueryError.networkHeight "connection refused").message)) ∧
    (engineRun cfgC initialEngineState (netFailTick :: tickSeq)).1
      = (engineRun cfgC initialEngineState tickSeq).1 :=
  ⟨failed_tick_noop.1 cfgC initialEngineState netFailTick
      (.networkHeight "connection refused") rfl,
   (failed_tick_noop.2.1 cfgC initialEngineState netFailTick tickSeq
      (.networkHeight "connection refused") rfl).1⟩

lemma engineRun_length (cfg : Config) :
    ∀ (ticks : List TickInput) (st : EngineState),
      (engineRun cfg st ticks).2.length = ticks.length := by
  intro ticks
  induction ticks with
  | nil => intro st; rfl
  | cons t rest ih => intro st; simp [engineRun, ih]

lemma runCheck_state_channels_irrelevant (cfg : Config) (st : EngineState)
    (t : TickInput) (res : ChannelResults) :
    (runCheck cfg st { t with channels := res }).1 = (runCheck cfg st t).1 := by
  cases hc : checkNodeStatus t.client cfg t.now with
  | error e => simp [runCheck, hc]
  | ok s =>
    simp only [runCheck, hc]
    cases hg : (!s.healthy && cfg.alerts.enabled) with
    | false => simp [hg]
    | true =>
      simp only [hg, if_true]
      cases hA : (sendAlert cfg res (alertMessage cfg s)).2.2 <;>
        cases hB : (sendAlert cfg t.channels (alertMessage cfg s)).2.2 <;>
          simp [hA, hB]

/-- Claim C9: the alert manager attempts every enabled channel even when
an earlier one fails, succeeds exactly when no enabled channel failed, and
its aggregate error lists each failed channel; the engine processes every
tick of a run and its state does not depend on the channel outcomes, so a
notifier failure never terminates the loop. -/
theorem notifier_aggregate :
    (∀ (cfg : Config) (res : ChannelResults) (msg : String),
      cfg.alerts.enabled = true →
        (sendAlert cfg res msg).1 = enabledChannels cfg) ∧
    (∀ (cfg : Config) (res : ChannelResults) (msg : String),
      cfg.alerts.enabled = true →
        ((sendAlert cfg res msg).2.2 = .ok () ↔ (sendAlert cfg res msg).2.1 = [])) ∧
    (∀ (cfg : Config) (res : ChannelResults) (msg : String) e,
      cfg.alerts.enabled = true → cfg.alerts.telegram.enabled = true →
      sendTelegramAlert cfg res = .error e →
        ("Telegram: " ++ e) ∈ (sendAlert cfg res msg).2.1) ∧
    (∀ (cfg : Config) (res : ChannelResults) (msg : String) e,
      cfg.alerts.enabled = true → cfg.alerts.discord.enabled = true →
      sendDiscordAlert cfg res = .error e →
        ("Discord: " ++ e) ∈ (sendAlert cfg res msg).2.1) ∧
    (∀ (cfg : Config) (res : ChannelResults) (msg : String) e,
      cfg.alerts.enabled = true → cfg.alerts.twilio.enabled = true →
      sendTwilioAlert cfg res = .error e →
        ("Twilio: " ++ e) ∈ (sendAlert cfg res msg).2.1) ∧
    (∀ (cfg : Config) (res : ChannelResults) (msg : String),
      cfg.alerts.enabled = true →
      (cfg.alerts.telegram.enabled = true → sendTelegramAlert cfg res = .ok ()) →
      (cfg.alerts.discord.enabled = true → sendDiscordAlert cfg res = .ok ()) →
      (cfg.alerts.twilio.enabled = true → sendTwilioAlert cfg res = .ok ()) →
        (sendAlert cfg res msg).2.2 = .ok ()) ∧
    (∀ (cfg : Config) (st : EngineState) (ticks : List TickInput),
      (engineRun cfg st ticks).2.length = ticks.length) ∧
    (∀ (cfg : Config) (st : EngineState) (t : TickInput) (res : ChannelResults),
      (runCheck cfg st { t with channels := res }).1 = (runCheck cfg st t).1) := by
  refine ⟨?_, ?_, ?_, ?_, ?_, ?_,
    fun cfg st ticks => engineRun_length cfg ticks st,
    runCheck_state_channels_irrelevant⟩
  · intro cfg res msg h
    cases hT : cfg.alerts.telegram.enabled <;>
      cases hD : cfg.alerts.discord.enabled <;>
        cases hW : cfg.alerts.twilio.enabled <;>
          simp [sendAlert, enabledChannels, h, hT, hD, hW]
  · intro cfg res msg h
    have hout : (sendAlert cfg res msg).2.2
        = if ((sendAlert cfg res msg).2.1).isEmpty then .ok ()
          else .error ("failed to send alerts: "
            ++ String.intercalate "; " ((sendAlert cfg res msg).2.1)) := by
      simp [sendAlert, h]
    rw [hout]
    cases hF : (sendAlert cfg res msg).2.1 <;> simp
  · intro cfg res msg e h hT hE
    simp [sendAlert, h, hT, hE]
  · intro cfg res msg e h hD hE
    simp [sendAlert, h, hD, hE]
  · intro cfg res msg e h hW hE
    simp [sendAlert, h, hW, hE]
  · intro cfg res msg h a b c
    cases hT : cfg.alerts.telegram.enabled <;>
      cases hD : cfg.alerts.discord.enabled <;>
        cases hW : cfg.alerts.twilio.enabled <;>
          simp_all [sendAlert]

/-- Witness for C9: alerts enabled with Telegram and Discord configured;
the Telegram HTTP send fails, the failure appears in the aggregate, and
both enabled channels were attempted. -/
theorem notifier_aggregate_witness :
    (sendAlert cfgW resW "msg").1 = enabledChannels cfgW ∧
    ("Telegram: HTTP 500") ∈ (sendAlert cfgW resW "msg").2.1 :=
  ⟨notifier_aggregate.1 cfgW resW "msg" rfl,
   notifier_aggregate.2.2.1 cfgW resW "msg" "HTTP 500" rfl rfl rfl⟩

/-- Claim C10: with the global alerts flag off, the alert manager returns
ok immediately attempting no channel (even when individual channels are
enabled), and the engine never invokes the notifier on any tick of any
run. -/
theorem alerts_disabled_silent :
    (∀ (cfg : Config) (res : ChannelResults) (msg : String),
      cfg.alerts.enabled = false → sendAlert cfg res msg = ([], [], .ok ())) ∧
    (∀ (cfg : Config) (st : EngineState) (t : TickInput),
      cfg.alerts.enabled = false → (runCheck cfg st t).2.1 = false) ∧
    (∀ (cfg : Config) (st : EngineState) (ticks : List TickInput),
      cfg.alerts.enabled = false →
        (engineRun cfg st ticks).2 = List.replicate ticks.length false) := by
  have h2 : ∀ (cfg : Config) (st : EngineState) (t : TickInput),
      cfg.alerts.enabled = false → (runCheck cfg st t).2.1 = false := by
    intro cfg st t h
    cases hc : checkNodeStatus t.client cfg t.now with
    | error e => simp [runCheck, hc]
    | ok s => simp [runCheck, hc, h]
  refine ⟨fun cfg res msg h => by simp [sendAlert, h], h2, ?_⟩
  intro cfg st ticks h
  induction ticks generalizing st with
  | nil => rfl
  | cons t rest ih =>
    simp [engineRun, h2 cfg st t h, ih, List.replicate_succ]

/-- Witness for C10: alerts globally off while Telegram and Discord are
individually enabled — no channel attempted, no tick notifies. -/
theorem alerts_disabled_silent_witness :
    sendAlert cfgDisabled resW "msg" = ([], [], .ok ()) ∧
    (engineRun cfgDisabled initialEngineState tickSeq).2
      = List.replicate tickSeq.length false :=
  ⟨alerts_disabled_silent.1 cfgDisabled resW "msg" rfl,
   alerts_disabled_silent.2.2 cfgDisabled initialEngineState tickSeq rfl⟩

/-- Counterexample for C1 as stated: on the healthy-flag sequence
[true, false, false, true, false] the engine notifies at indices 1, 2
and 4 — three notifications, not the two of a falling-edge policy; the
steadily unhealthy index 2 is re-alerted. -/
theorem alert_not_debounced_cx :
    (engineRun cfgC initialEngineState tickSeq).2
      = [false, true, true, false, true] ∧
    (engineRun cfgC initialEngineState tickSeq).2.count true = 3 ∧
    (engineRun cfgC initialEngineState tickSeq).2.count true ≠ 2 := by
  decide

/-- Claim C1 (amended): the engine notifies at a tick exactly when that
tick evaluates successfully to an unhealthy snapshot and alerts are
enabled — independent of the previous health state, so a continuously
unhealthy node is re-alerted on every tick; on the healthy-flag sequence
[true, false, false, true, false] three notifications fire (indices 1, 2
and 4). -/
theorem alert_on_every_unhealthy_tick :
    (∀ (cfg : Config) (st : EngineState) (t : TickInput),
      (runCheck cfg st t).2.1 = true ↔
        (cfg.alerts.enabled = true ∧
          ∃ s, checkNodeStatus t.client cfg t.now = .ok s ∧ s.healthy = false)) ∧
    (∀ (cfg : Config) (st st' : EngineState) (t : TickInput),
      (runCheck cfg st t).2.1 = (runCheck cfg st' t).2.1) ∧
    (engineRun cfgC initialEngineState tickSeq).2.count true = 3 := by
  have hstep : ∀ (cfg : Config) (st : EngineState) (t : TickInput),
      (runCheck cfg st t).2.1 = true ↔
        (cfg.alerts.enabled = true ∧
          ∃ s, checkNodeStatus t.client cfg t.now = .ok s ∧ s.healthy = false) := by
    intro cfg st t
    cases hc : checkNodeStatus t.client cfg t.now with
    | error e => simp [runCheck, hc]
    | ok s =>
      cases hh : s.healthy <;> cases he : cfg.alerts.enabled <;>
        cases hA : (sendAlert cfg t.channels (alertMessage cfg s)).2.2 <;>
          simp [runCheck, hc, hh, he, hA]
  refine ⟨hstep, ?_, by decide⟩
  intro cfg st st' t
  cases h1 : (runCheck cfg st t).2.1 <;> cases h2 : (runCheck cfg st' t).2.1 <;>
    try rfl
  · exact absurd ((hstep cfg st t).2 ((hstep cfg st' t).1 h2)) (by simp [h1])
  · exact absurd ((hstep cfg st' t).2 ((hstep cfg st t).1 h1)) (by simp [h2])

/-- Claim C2 (code evaluation): `runCheck` never writes the status store —
the persisted record is unchanged by every tick and still absent after a
run with successful evaluations, although `SaveStatus` exists and the
status command expects `start` to have produced the record. -/
theorem runCheck_never_persists :
    (∀ (cfg : Config) (st : EngineState) (t : TickInput),
      (runCheck cfg st t).1.store = st.store) ∧
    (∀ (cfg : Config) (st : EngineState) (ticks : List TickInput),
      (engineRun cfg st ticks).1.store = st.store) ∧
    (engineRun cfgC initialEngineState tickSeq).1.store = none := by
  have h1 : ∀ (cfg : Config) (st : EngineState) (t : TickInput),
      (runCheck cfg st t).1.store = st.store := by
    intro cfg st t
    cases hc : checkNodeStatus t.client cfg t.now with
    | error e => simp [runCheck, hc]
    | ok s =>
      simp only [runCheck, hc]
      cases hg : (!s.healthy && cfg.alerts.enabled) with
      | false => simp [hg]
      | true =>
        simp only [hg, if_true]
        cases hA : (sendAlert cfg t.channels (alertMessage cfg s)).2.2 <;>
          simp [hA]
  have h2 : ∀ (cfg : Config) (ticks : List TickInput) (st : EngineState),
      (engineRun cfg st ticks).1.store = st.store := by
    intro cfg ticks
    induction ticks with
    | nil => intro st; rfl
    | cons t rest ih => intro st; simp [engineRun, ih, h1]
  exact ⟨h1, fun cfg st ticks => h2 cfg ticks st,
    (h2 cfgC tickSeq initialEngineState).trans rfl⟩

end Watchtower
